import Mathlib

/-
Verification of the order-enrichment pipeline.

Shallow embedding of the Python sources:
  src/utils/parsing.py, src/utils/csv.py, src/utils/comments.py,
  src/services/client.py, src/services/order_details.py.

Conventions of the embedding:
  - a Python dict row is an ordered association list from column name to
    string value (as produced by csv.DictReader);
  - Python None versus a string value is an Option String; Python
    truthiness of such a value is pyTruthy;
  - fallible Python code returns Except PyErr;
  - the network and the file system are oracles passed in explicitly;
  - str.isdigit and str.strip are modelled over ASCII characters
    (none of the verified claims depends on their Unicode behavior).
-/

/-- A row: ordered association list of column name to string value,
modelling a Python dict produced by csv.DictReader. -/
abbrev Row := List (String × String)

/-- Models dict.get(key): the value of the first binding of the key. -/
def rowGet (row : Row) (key : String) : Option String :=
  (row.find? (fun p => p.1 == key)).map (fun p => p.2)

/-- Models dict.get(key, default). -/
def rowGetD (row : Row) (key dflt : String) : String :=
  (rowGet row key).getD dflt

/-- Python truthiness of an optional string: None and the empty string are falsy. -/
def pyTruthy : Option String → Bool
  | none => false
  | some s => s != ""

/-- Models str(x) for an optional string: None prints as the word None. -/
def pyStrOpt : Option String → String
  | none => "None"
  | some s => s

/-- Models the expression (x or "") for an optional string. -/
def pyOrEmpty (o : Option String) : String :=
  if pyTruthy o then o.getD "" else ""

/-- ASCII model of the single-character str.isdigit test. -/
def isDigitChar (c : Char) : Bool := c.isDigit

/-- ASCII model of the whitespace class used by str.strip and int(). -/
def isPySpace (c : Char) : Bool :=
  c == ' ' || c == '\t' || c == '\n' || c == '\r' || c == Char.ofNat 11 || c == Char.ofNat 12

/-- Models str.strip(). -/
def pyStrip (s : String) : String :=
  String.mk (((s.data.dropWhile isPySpace).reverse.dropWhile isPySpace).reverse)

/-- Numeric value of a list of decimal digit characters. -/
def digitsToNat (cs : List Char) : Nat :=
  cs.foldl (fun n c => n * 10 + (c.toNat - 48)) 0

/-- Models str.isdigit() on a whole string: nonempty and all digits. -/
def isDigitStr (s : String) : Bool := !s.isEmpty && s.data.all isDigitChar

/-- Models int(s) on a string: optional surrounding whitespace, optional
sign, then decimal digits. (Python also accepts digit-group underscores
and Unicode digits; no claim depends on those inputs.) -/
def pyInt (s : String) : Option Int :=
  let cs := ((s.data.dropWhile isPySpace).reverse.dropWhile isPySpace).reverse
  let signed : Int × List Char :=
    match cs with
    | '-' :: rest => (-1, rest)
    | '+' :: rest => (1, rest)
    | _ => (1, cs)
  if !signed.2.isEmpty && signed.2.all isDigitChar then
    some (signed.1 * (digitsToNat signed.2 : Int))
  else none

/-- Models sep.join(parts). -/
def pyJoin (sep : String) : List String → String
  | [] => ""
  | [s] => s
  | s :: rest => s ++ sep ++ pyJoin sep rest

/-- Models s.split(" ")[0]: the prefix of s before its first space. -/
def firstWord (s : String) : String :=
  String.mk (s.data.takeWhile (fun c => c != ' '))

/- ===== src/utils/parsing.py ===== -/

/-- The digit characters of the raw phone input, in order; embeds
the expression joining filter(str.isdigit, str(raw_phone or "")) in
parse_phone. -/
def phoneDigits (raw : Option String) : List Char :=
  (pyOrEmpty raw).data.filter isDigitChar

/-- The formatted output of parse_phone for ten digit characters. -/
def formatPhone (ds : List Char) : String :=
  "(" ++ String.mk (ds.take 3) ++ ") " ++ String.mk ((ds.drop 3).take 3)
    ++ "-" ++ String.mk (ds.drop 6)

/-- Embeds parse_phone from src/utils/parsing.py. -/
def parse_phone (raw : Option String) : Option String :=
  let digits := phoneDigits raw
  let digits := if digits.head? == some '1' && digits.length == 11 then digits.tail else digits
  if digits.length == 10 then some (formatPhone digits) else none

/-- The five dropoff parts of a row, in the fixed source order of
parse_full_location. -/
def dropoff_parts (row : Row) : List (Option String) :=
  [rowGet row "DropoffLocation",
   rowGet row "DropoffDormRoomNumber",
   rowGet row "DropoffDormRoomLetter",
   rowGet row "DropoffAddressLine1",
   rowGet row "DropoffAddressLine2"]

/-- Models the test part not in (None, empty, None-literal, Off-Campus)
of parse_full_location. -/
def keptPart (p : Option String) : Bool :=
  !(p == none || p == some "" || p == some "None" || p == some "Off-Campus")

/-- The surviving dropoff parts of a row, each rendered with str. -/
def survivingParts (row : Row) : List String :=
  ((dropoff_parts row).filter keptPart).map pyStrOpt

/-- Embeds parse_full_location from src/utils/parsing.py. -/
def parse_full_location (row : Row) : String :=
  pyStrip (pyJoin " " (survivingParts row))

/-- The exception kinds of the Python model that propagate to a caller. -/
inductive PyErr where
  | valueError
  | clientError
  | stopIteration
deriving DecidableEq, Repr

/-- Embeds parse_file_type from src/utils/parsing.py: the substring after
the last dot, ValueError when there is no dot. -/
def parse_file_type (filepath : String) : Except PyErr String :=
  if filepath.data.contains '.' then
    .ok (String.mk ((filepath.data.reverse.takeWhile (fun c => c != '.')).reverse))
  else .error .valueError

/-- A calendar date as produced by datetime.date. -/
structure PyDate where
  year : Nat
  month : Nat
  day : Nat
deriving DecidableEq, Repr

/-- Parses an exact YYYY-MM-DD character shape with field-range checks.
(The exact-calendar validation of strptime is approximated by ranges;
no claim depends on parse_date values.) -/
def parseYmd (cs : List Char) : Option PyDate :=
  match cs with
  | [y1, y2, y3, y4, '-', m1, m2, '-', d1, d2] =>
    if [y1, y2, y3, y4, m1, m2, d1, d2].all isDigitChar then
      let m := digitsToNat [m1, m2]
      let d := digitsToNat [d1, d2]
      if 1 ≤ m && m ≤ 12 && 1 ≤ d && d ≤ 31 then
        some ⟨digitsToNat [y1, y2, y3, y4], m, d⟩
      else none
    else none
  | _ => none

/-- Checks an exact HH:MM:SS character shape with field-range checks. -/
def parseHms (cs : List Char) : Bool :=
  match cs with
  | [h1, h2, ':', m1, m2, ':', s1, s2] =>
    [h1, h2, m1, m2, s1, s2].all isDigitChar &&
      digitsToNat [h1, h2] ≤ 23 && digitsToNat [m1, m2] ≤ 59 && digitsToNat [s1, s2] ≤ 61
  | _ => false

/-- Embeds parse_date from src/utils/parsing.py on string-or-missing input:
falsy input gives None, then the three accepted formats are tried
(plain date, then date with a T time separator, then with a space),
and any failure gives None rather than raising. -/
def parse_date (val : Option String) : Option PyDate :=
  match val with
  | none => none
  | some s =>
    if s == "" then none
    else
      match parseYmd s.data with
      | some d => some d
      | none =>
        match s.data.drop 10 with
        | sep :: time8 =>
          if (sep == 'T' || sep == ' ') && parseHms time8 then parseYmd (s.data.take 10)
          else none
        | [] => none

/-- Models str() of an Optional[date] in an f-string. -/
def padNat (width n : Nat) : String :=
  let s := toString n
  String.mk (List.replicate (width - s.length) '0') ++ s

/-- Models str() of an Optional[date]: None prints as the word None,
a date as ISO YYYY-MM-DD. -/
def pyStrOptDate : Option PyDate → String
  | none => "None"
  | some d => padNat 4 d.year ++ "-" ++ padNat 2 d.month ++ "-" ++ padNat 2 d.day

/-- Embeds parse_int from src/utils/parsing.py: int(val) with zero treated
as absent; a TypeError on None or a ValueError on a malformed string is
caught and gives None. -/
def parse_int (val : Option String) : Option Int :=
  match val with
  | none => none
  | some s =>
    match pyInt s with
    | none => none
    | some i => if i = 0 then none else some i

/- ===== src/services/client.py ===== -/

/-- One raw line of the order-items JSON response; absent keys are none. -/
structure ItemLine where
  ItemTitle : Option String
  Quantity : Option Int
deriving DecidableEq, Repr

/-- One aggregated entry produced by fetch_items. -/
structure AggItem where
  ItemTitle : String
  Quantity : Int
deriving DecidableEq, Repr

/-- Models the dict update adding qty to the entry keyed by the title:
the quantity of the first (unique) entry with that title grows by q. -/
def updateFirstQty : List AggItem → String → Int → List AggItem
  | [], _, _ => []
  | it :: rest, t, q =>
    if it.ItemTitle = t then { it with Quantity := it.Quantity + q } :: rest
    else it :: updateFirstQty rest t q

/-- One step of the aggregation loop of fetch_items. -/
def aggStep (acc : List AggItem) (line : ItemLine) : List AggItem :=
  let title := line.ItemTitle.getD "Unknown"
  let qty := line.Quantity.getD 1
  if title ∈ acc.map AggItem.ItemTitle then updateFirstQty acc title qty
  else acc ++ [⟨title, qty⟩]

/-- The aggregation loop of fetch_items over an insertion-ordered dict
keyed by item title. -/
def aggregateItems (lines : List ItemLine) : List AggItem :=
  lines.foldl aggStep []

/-- Embeds the body of StorageScholarsClient.fetch_items as a function of
the JSON response of the items endpoint: a falsy response (null or the
empty list) raises StorageScholarsClientError, otherwise the lines are
aggregated by title. -/
def fetch_items (resp : Option (List ItemLine)) : Except PyErr (List AggItem) :=
  match resp with
  | none => .error .clientError
  | some lines =>
    if lines.isEmpty then .error .clientError else .ok (aggregateItems lines)

/-- The dropoff JSON response object; absent keys are none. -/
structure DropoffInfo where
  StorageUnitName : Option String
  Quadrant : Option String
deriving DecidableEq, Repr

/-- Embeds the body of StorageScholarsClient.fetch_dropoff_info as a
function of the JSON response: a falsy response or a falsy storage-unit
name or quadrant raises StorageScholarsClientError. -/
def fetch_dropoff_info (resp : Option DropoffInfo) : Except PyErr DropoffInfo :=
  match resp with
  | none => .error .clientError
  | some info =>
    if pyTruthy info.StorageUnitName && pyTruthy info.Quadrant then .ok info
    else .error .clientError

/-- One image descriptor of the images JSON response. -/
structure ImageData where
  ImageURL : Option String
  Filepath : Option String
deriving DecidableEq, Repr

/-- The deterministic local image file name built by fetch_images
(os.path.join of the images directory rendered with a slash). -/
def imageFileName (orderId idx : Nat) (ext : String) : String :=
  "data/images/" ++ toString orderId ++ "_" ++ toString idx ++ "." ++ ext

/-- The per-descriptor loop of fetch_images: extension from the
server-side path (ValueError propagates), then the download through the
oracle (a failure propagates); indices count up from the start value. -/
def fetch_images_loop (download : Option String → String → Except PyErr Unit)
    (orderId : Nat) : Nat → List ImageData → Except PyErr (List String)
  | _, [] => .ok []
  | idx, img :: rest =>
    match parse_file_type (img.Filepath.getD "") with
    | .error e => .error e
    | .ok ext =>
      let name := imageFileName orderId idx ext
      match download img.ImageURL name with
      | .error e => .error e
      | .ok _ =>
        match fetch_images_loop download orderId (idx + 1) rest with
        | .error e => .error e
        | .ok rest2 => .ok (name :: rest2)

/-- Embeds the body of StorageScholarsClient.fetch_images as a function of
the JSON response: a falsy descriptor list raises, otherwise the indexed
download loop runs starting at index 1. -/
def fetch_images (download : Option String → String → Except PyErr Unit)
    (resp : Option (List ImageData)) (orderId : Nat) : Except PyErr (List String) :=
  match resp with
  | none => .error .clientError
  | some imgs =>
    if imgs.isEmpty then .error .clientError
    else fetch_images_loop download orderId 1 imgs

/-- One internal-note object of the notes JSON response. -/
structure NoteData where
  Comment : Option String
  AddedByUserName : Option String
  CreatedDate : Option String
  Deleted : Option String
deriving DecidableEq, Repr

/-- Models str.endswith for the one-character dot suffix used in the source. -/
def endsWithDot (s : String) : Bool := s.data.getLast? == some '.'

/-- Embeds the note_str f-string of fetch_internal_notes: optional DELETED
marker, author, parsed creation date, comment, and a final period when the
comment does not already end with one. -/
def render_note (note : NoteData) : String :=
  let comment := note.Comment.getD ""
  let username := note.AddedByUserName.getD "Unknown"
  let created_date := parse_date note.CreatedDate
  (if note.Deleted == some "1" then "DELETED " else "") ++
    "Internal note by " ++ username ++ " on " ++ pyStrOptDate created_date ++ ": " ++
    comment ++ (if endsWithDot comment then "" else ".")

/-- Embeds the body of StorageScholarsClient.fetch_internal_notes as a
function of the JSON response: a falsy response yields no notes (not an
error), otherwise each note renders through render_note in order. -/
def fetch_internal_notes (resp : Option (List NoteData)) : List String :=
  match resp with
  | none => []
  | some notes => notes.map render_note

/-- The remote service seen by one client object: for each endpoint, the
outcome of the underlying GET as a function of the order id. An error
value models a transport or HTTP failure raised by the GET primitive; an
ok value carries the parsed JSON body (none for a null body). The notes
endpoint is keyed by the raw OrderID string, which is how
generate_comments calls it. The download oracle models the image
download, from the descriptor URL and the local file name. -/
structure Client where
  itemsResp : Nat → Except PyErr (Option (List ItemLine))
  dropoffResp : Nat → Except PyErr (Option DropoffInfo)
  imagesResp : Nat → Except PyErr (Option (List ImageData))
  notesResp : String → Except PyErr (Option (List NoteData))
  download : Option String → String → Except PyErr Unit

/-- client.fetch_items(order_id): the GET then the fetch_items body. -/
def Client.fetchItems (c : Client) (orderId : Nat) : Except PyErr (List AggItem) :=
  match c.itemsResp orderId with
  | .error e => .error e
  | .ok resp => fetch_items resp

/-- client.fetch_dropoff_info(order_id). -/
def Client.fetchDropoffInfo (c : Client) (orderId : Nat) : Except PyErr DropoffInfo :=
  match c.dropoffResp orderId with
  | .error e => .error e
  | .ok resp => fetch_dropoff_info resp

/-- client.fetch_images(order_id). -/
def Client.fetchImages (c : Client) (orderId : Nat) : Except PyErr (List String) :=
  match c.imagesResp orderId with
  | .error e => .error e
  | .ok resp => fetch_images c.download resp orderId

/-- client.fetch_internal_notes(order_id), keyed by the OrderID string. -/
def Client.fetchInternalNotes (c : Client) (orderId : String) : Except PyErr (List String) :=
  match c.notesResp orderId with
  | .error e => .error e
  | .ok resp => .ok (fetch_internal_notes resp)

/- ===== src/utils/comments.py ===== -/

/-- The four conditional comment lines of generate_comments, appended in
source order: cancellation, deletion, proxy contact, pending balance. -/
def base_comments (data : Row) : List String :=
  (if rowGetD data "Cancelled" "0" == "1" then ["Order was canceled."] else []) ++
  (if rowGetD data "Deleted" "0" == "1" then ["Order was deleted."] else []) ++
  (let dropoff_name := rowGet data "DropoffPersonName"
   let dropoff_phone := rowGet data "DropoffPersonPhone"
   if pyTruthy dropoff_name && pyTruthy dropoff_phone then
     ["Call proxy " ++ pyStrOpt dropoff_name ++ " at " ++ pyStrOpt (parse_phone dropoff_phone)]
   else []) ++
  (match parse_int (rowGet data "Balance") with
   | some b => if b > 0 then ["Call customer to pay pending balance."] else []
   | none => [])

/-- The internal-notes lines of generate_comments: fetched only when an
OrderID key is present (is-not-None test); a failure of the fetch is
caught and contributes nothing. -/
def notes_comments (c : Client) (data : Row) : List String :=
  match rowGet data "OrderID" with
  | none => []
  | some oid =>
    match c.fetchInternalNotes oid with
    | .ok notes => notes
    | .error _ => []

/-- Embeds generate_comments from src/utils/comments.py. -/
def generate_comments (c : Client) (data : Row) : String :=
  pyJoin " " (base_comments data ++ notes_comments c data)

/- ===== src/services/order_details.py ===== -/

/-- The order-id string selected by get_order_id: the OrderID value when
truthy, otherwise the value of the first column; on an empty row the
first-column access raises StopIteration. -/
def order_id_str (row : Row) : Except PyErr (Option String) :=
  let a := rowGet row "OrderID"
  if pyTruthy a then .ok a
  else
    match row.head? with
    | none => .error .stopIteration
    | some kv => .ok (rowGet row kv.1)

/-- Embeds get_order_id from src/services/order_details.py: the selected
string must be present and all-digits, else ValueError. -/
def get_order_id (row : Row) : Except PyErr Nat :=
  match order_id_str row with
  | .error e => .error e
  | .ok (some s) => if isDigitStr s then .ok (digitsToNat s.data) else .error .valueError
  | .ok none => .error .valueError

/-- The items cell of the output row. -/
def items_text (items : List AggItem) : String :=
  if items.isEmpty then ""
  else pyJoin ", " (items.map (fun it => toString it.Quantity ++ "x " ++ it.ItemTitle))

/-- The storage-unit cell of the output row. -/
def storage_unit (info : DropoffInfo) : String :=
  pyStrip (info.StorageUnitName.getD "" ++ " " ++ info.Quadrant.getD "")

/-- The enriched output row built by build_row, with its fixed field plan. -/
structure OutRow where
  ID : Option String
  Name : Option String
  Pronunciation : String
  Phone : Option String
  Location : String
  Ct : Option String
  Items : String
  TimeLoaded : String
  TimeArrived : String
  TimeDelivered : String
  StorageUnit : String
  ParentPhone : Option String
  ImageCt : Nat
  Comments : String
deriving DecidableEq, Repr, Inhabited

/-- One outward call made while building a row. -/
inductive ApiCall where
  | openaiAsk (prompt : String)
  | items (orderId : Nat)
  | dropoff (orderId : Nat)
  | images (orderId : Nat)
  | internalNotes (orderId : String)
deriving DecidableEq, Repr

/-- The internal-notes call that generate_comments makes for a row:
present exactly when the row has an OrderID key. -/
def notesCallTrace (data : Row) : List ApiCall :=
  match rowGet data "OrderID" with
  | none => []
  | some oid => [.internalNotes oid]

/-- Result of building one row: the ordered trace of outward calls
actually made, and the row or the exception that propagated. -/
structure BuildOutcome where
  calls : List ApiCall
  result : Except PyErr OutRow
deriving Repr

/-- Embeds build_row from src/services/order_details.py, with oai the
ask_openai oracle (ask_openai catches its own failures and yields none).
The trace records the outward calls in source order; a fetch failure
propagates at once, so later calls are absent from the trace. -/
def build_row (oai : String → Option String) (c : Client) (old_row : Row) : BuildOutcome :=
  match get_order_id old_row with
  | .error e => ⟨[], .error e⟩
  | .ok order_id =>
    let fn := firstWord (pyOrEmpty (rowGet old_row "FullName"))
    let prompt := "In one word, no fluff, give me the pronunciation of the first name " ++ fn
    let pronunciation := (oai prompt).getD ""
    let t0 : List ApiCall := [.openaiAsk prompt]
    match c.fetchItems order_id with
    | .error e => ⟨t0 ++ [.items order_id], .error e⟩
    | .ok items =>
      let t1 := t0 ++ [.items order_id]
      match c.fetchDropoffInfo order_id with
      | .error e => ⟨t1 ++ [.dropoff order_id], .error e⟩
      | .ok info =>
        let t2 := t1 ++ [.dropoff order_id]
        match c.fetchImages order_id with
        | .error e => ⟨t2 ++ [.images order_id], .error e⟩
        | .ok image_file_names =>
          ⟨t2 ++ [.images order_id] ++ notesCallTrace old_row,
           .ok
            { ID := rowGet old_row "OrderID"
              Name := rowGet old_row "FullName"
              Pronunciation := pronunciation
              Phone := parse_phone (rowGet old_row "StudentPhone")
              Location := parse_full_location old_row
              Ct := rowGet old_row "ItemCount"
              Items := items_text items
              TimeLoaded := ""
              TimeArrived := ""
              TimeDelivered := ""
              StorageUnit := storage_unit info
              ParentPhone := parse_phone (rowGet old_row "ParentPhone")
              ImageCt := image_file_names.length
              Comments := generate_comments c old_row }⟩

/-- Result of processing a batch: the enriched rows in input order and
the zero-based indices of the rows whose processing raised (each such
index is logged in a warning by the source). -/
structure BatchOutcome where
  rows : List OutRow
  warned : List Nat
deriving Repr

/-- The enumerated loop of get_updated_rows, starting at a given index. -/
def get_updated_rows_from (oai : String → Option String) (c : Client) :
    Nat → List Row → BatchOutcome
  | _, [] => ⟨[], []⟩
  | idx, r :: rest =>
    let tail := get_updated_rows_from oai c (idx + 1) rest
    match (build_row oai c r).result with
    | .ok nr => ⟨nr :: tail.rows, tail.warned⟩
    | .error _ => ⟨tail.rows, idx :: tail.warned⟩

/-- Embeds get_updated_rows from src/services/order_details.py: each row
is built in input order; a failure is caught, logged with the row index,
and the row is excluded. -/
def get_updated_rows (oai : String → Option String) (c : Client)
    (old_rows : List Row) : BatchOutcome :=
  get_updated_rows_from oai c 0 old_rows

/- ===== src/utils/csv.py ===== -/

/-- Embeds add_suffix_to_file_name from src/utils/csv.py: rsplit at the
last dot when one exists, the suffix goes before the extension. -/
def add_suffix_to_file_name (file_name suffix : String) : String :=
  let cs := file_name.data
  if cs.contains '.' then
    let revCs := cs.reverse
    String.mk (((revCs.dropWhile (fun c => c != '.')).tail).reverse)
      ++ suffix ++ "." ++ String.mk ((revCs.takeWhile (fun c => c != '.')).reverse)
  else file_name ++ suffix

/-- The outcome of one attempt to open and write a given file name, as
decided by the environment (the file system). -/
inductive WriteOutcome where
  | success
  | permissionDenied
  | otherError
deriving DecidableEq, Repr

/-- The ways the write model fails: the explicit ValueError on an empty
row list, a non-permission write error that the source re-raises, and a
fuel cutoff standing for the unbounded Python retry loop spinning past
the modelled horizon. -/
inductive WriteErr where
  | valueError
  | ioError
  | fuelOut
deriving DecidableEq, Repr

/-- A completed CSV write: the file name finally used and the header row
that was written. -/
structure CsvWrite where
  file_name : String
  header : List String
deriving DecidableEq, Repr

/-- The retry loop of write_to_csv: on success the current name is kept;
on a permission error the attempt counter advances and its parenthesized
value is appended to the current (already mutated) name; any other error
re-raises. The fuel bounds the unbounded source loop. -/
def write_loop (fs : String → WriteOutcome) :
    Nat → String → Nat → List String → Except WriteErr CsvWrite
  | 0, _, _, _ => .error .fuelOut
  | fuel + 1, file_name, attempt, header =>
    match fs file_name with
    | .success => .ok ⟨file_name, header⟩
    | .permissionDenied =>
      write_loop fs fuel
        (add_suffix_to_file_name file_name (" (" ++ toString (attempt + 1) ++ ")"))
        (attempt + 1) header
    | .otherError => .error .ioError

/-- Embeds write_to_csv from src/utils/csv.py: an empty row list raises
ValueError before any file is touched; otherwise the retry loop writes
with the first row's keys as the header. fs models the file system. -/
def write_to_csv (fs : String → WriteOutcome) (fuel : Nat) (file_name : String)
    (rows : List (List (String × String))) : Except WriteErr CsvWrite :=
  match rows with
  | [] => .error .valueError
  | row0 :: _ => write_loop fs fuel file_name 0 (row0.map Prod.fst)

/-- The file name the retry loop uses on attempt n: attempt 0 is the
original name, and each further attempt appends its parenthesized counter
to the previous attempt's name. -/
def nthAttemptName (file_name : String) : Nat → String
  | 0 => file_name
  | n + 1 => add_suffix_to_file_name (nthAttemptName file_name n) (" (" ++ toString (n + 1) ++ ")")

/- ===== Heap model for the frame claim about build_row ===== -/

/-- A heap of dict objects: the address of a row maps to its contents.
In-place mutation of a dict would change the store at its address. -/
abbrev RowStore := List Row

/-- A dict read old_row.get(key) performed through the heap. -/
def heapGet (store : RowStore) (ref : Nat) (key : String) : Option String :=
  match store.get? ref with
  | some row => rowGet row key
  | none => none

/-- The dict contents at an address, for passing the whole dict to a
read-only callee (parse_full_location, generate_comments, get_order_id
all only read their row argument). -/
def derefRow (store : RowStore) (ref : Nat) : Row :=
  (store.get? ref).getD []

/-- A dict assignment row[key] = value: the first binding of the key is
replaced, or the binding is appended when the key is new. -/
def rowSet (row : Row) (key value : String) : Row :=
  if (row.find? (fun p => p.1 == key)).isSome then
    row.map (fun p => if p.1 == key then (key, value) else p)
  else row ++ [(key, value)]

/-- A dict write old_row[key] = value performed through the heap: what an
in-place update of the input row would look like. build_row performs no
such operation. -/
def heapSet (store : RowStore) (ref : Nat) (key value : String) : RowStore :=
  store.set ref (rowSet (derefRow store ref) key value)

/-- Embeds build_row against the heap: the input row lives at an address
of the store, every access to it is a read, and the output row is a
fresh value, so the store is returned unchanged. -/
def build_row_heap (oai : String → Option String) (c : Client)
    (store : RowStore) (ref : Nat) : RowStore × BuildOutcome :=
  let old_row := derefRow store ref
  match get_order_id old_row with
  | .error e => (store, ⟨[], .error e⟩)
  | .ok order_id =>
    let fn := firstWord (pyOrEmpty (heapGet store ref "FullName"))
    let prompt := "In one word, no fluff, give me the pronunciation of the first name " ++ fn
    let pronunciation := (oai prompt).getD ""
    let t0 : List ApiCall := [.openaiAsk prompt]
    match c.fetchItems order_id with
    | .error e => (store, ⟨t0 ++ [.items order_id], .error e⟩)
    | .ok items =>
      let t1 := t0 ++ [.items order_id]
      match c.fetchDropoffInfo order_id with
      | .error e => (store, ⟨t1 ++ [.dropoff order_id], .error e⟩)
      | .ok info =>
        let t2 := t1 ++ [.dropoff order_id]
        match c.fetchImages order_id with
        | .error e => (store, ⟨t2 ++ [.images order_id], .error e⟩)
        | .ok image_file_names =>
          (store,
           ⟨t2 ++ [.images order_id] ++ notesCallTrace old_row,
            .ok
             { ID := heapGet store ref "OrderID"
               Name := heapGet store ref "FullName"
               Pronunciation := pronunciation
               Phone := parse_phone (heapGet store ref "StudentPhone")
               Location := parse_full_location old_row
               Ct := heapGet store ref "ItemCount"
               Items := items_text items
               TimeLoaded := ""
               TimeArrived := ""
               TimeDelivered := ""
               StorageUnit := storage_unit info
               ParentPhone := parse_phone (heapGet store ref "ParentPhone")
               ImageCt := image_file_names.length
               Comments := generate_comments c old_row }⟩)

/- ===== Vocabulary used by the theorem statements ===== -/

/-- Two adjacent space characters nowhere in the list. -/
def noDoubleSpace : List Char → Bool
  | c1 :: c2 :: rest => !(c1 == ' ' && c2 == ' ') && noDoubleSpace (c2 :: rest)
  | _ => true

/-- The first character exists and is whitespace. -/
def headSpace (cs : List Char) : Bool :=
  match cs.head? with
  | some c => isPySpace c
  | none => false

/-- The last character exists and is whitespace. -/
def lastSpace (cs : List Char) : Bool :=
  match cs.getLast? with
  | some c => isPySpace c
  | none => false

/-- A well-formed location part: nonempty, no internal double space, and
no leading or trailing whitespace. -/
def partOk (s : String) : Bool :=
  !s.data.isEmpty && noDoubleSpace s.data && !headSpace s.data && !lastSpace s.data

/-- The dict key an items-response line aggregates under. -/
def lineKey (l : ItemLine) : String := l.ItemTitle.getD "Unknown"

/-- Accumulates a value, keeping only its first appearance. -/
def insertNew (seen : List String) (t : String) : List String :=
  if t ∈ seen then seen else seen ++ [t]

/-- The distinct values of a list, each at its first appearance, in order. -/
def eraseDupsFirst (l : List String) : List String := l.foldl insertNew []

/-- Total quantity the aggregated entries assign to a title. -/
def qtyOfTitle : List AggItem → String → Int
  | [], _ => 0
  | it :: rest, t => (if it.ItemTitle = t then it.Quantity else 0) + qtyOfTitle rest t

/-- Total quantity the raw response lines carry for a title. -/
def linesQty : List ItemLine → String → Int
  | [], _ => 0
  | l :: rest, t => (if lineKey l = t then l.Quantity.getD 1 else 0) + linesQty rest t

/- ===== Theorems ===== -/

theorem stringMk_data (cs : List Char) : (String.mk cs).data = cs := rfl

theorem phoneDigits_digits (raw : Option String) :
    ∀ c ∈ phoneDigits raw, isDigitChar c := by
  intro c hc
  simp only [phoneDigits, List.mem_filter] at hc
  exact hc.2

theorem phoneDigits_of_digit_list (cs : List Char) (hne : cs ≠ [])
    (hdig : ∀ c ∈ cs, isDigitChar c) :
    phoneDigits (some (String.mk cs)) = cs := by
  have htr : pyTruthy (some (String.mk cs)) = true := by
    simp only [pyTruthy, bne_iff_ne, ne_eq, decide_eq_true_eq]
    intro h
    exact hne (congrArg String.data h)
  simp only [phoneDigits, pyOrEmpty, htr, if_true, Option.getD_some, stringMk_data]
  exact List.filter_eq_self.mpr (by intro a ha; exact hdig a ha)

/-- C3: parse_phone maps any input whose digit sequence has exactly 10
digits to the formatted (AAA) BBB-CCCC string built from those digits; an
input whose digit sequence has 11 digits starting with the digit 1 maps
to the same output as its trailing 10 digits; every input with any other
digit count yields none rather than raising or echoing the input. -/
theorem claim_C3_parse_phone (raw : Option String) :
    ((phoneDigits raw).length = 10 →
      parse_phone raw = some (formatPhone (phoneDigits raw))) ∧
    ((phoneDigits raw).length = 11 → (phoneDigits raw).head? = some '1' →
      parse_phone raw = some (formatPhone (phoneDigits raw).tail) ∧
      parse_phone raw = parse_phone (some (String.mk (phoneDigits raw).tail))) ∧
    ((phoneDigits raw).length ≠ 10 →
      ¬((phoneDigits raw).length = 11 ∧ (phoneDigits raw).head? = some '1') →
      parse_phone raw = none) := by
  refine ⟨?_, ?_, ?_⟩
  · intro h
    simp [parse_phone, h]
  · intro h11 h1
    have htail : (phoneDigits raw).tail.length = 10 := by
      simp [List.length_tail, h11]
    have hfirst : parse_phone raw = some (formatPhone (phoneDigits raw).tail) := by
      simp [parse_phone, h11, h1, htail]
    refine ⟨hfirst, ?_⟩
    have hne : (phoneDigits raw).tail ≠ [] := by
      intro hcontra
      have := congrArg List.length hcontra
      simp [htail] at this
    have hdig : ∀ c ∈ (phoneDigits raw).tail, isDigitChar c := by
      intro c hc
      exact phoneDigits_digits raw c (List.tail_subset _ hc)
    have hpd : phoneDigits (some (String.mk (phoneDigits raw).tail)) = (phoneDigits raw).tail :=
      phoneDigits_of_digit_list _ hne hdig
    rw [hfirst]
    simp [parse_phone, hpd, htail]
  · intro hn hnot
    by_cases hL : (phoneDigits raw).length = 11
    · have h1 : (phoneDigits raw).head? ≠ some '1' := fun h => hnot ⟨hL, h⟩
      simp [parse_phone, hL, h1, hn]
    · simp [parse_phone, hL, hn]

/-- Witness for C3 at a concrete ten-digit input. -/
theorem claim_C3_witness :
    (phoneDigits (some "5551234567")).length = 10 ∧
      parse_phone (some "5551234567") = some "(555) 123-4567" :=
  ⟨by decide, ((claim_C3_parse_phone (some "5551234567")).1 (by decide)).trans (by decide)⟩

theorem noDoubleSpace_cons_cons (c1 c2 : Char) (rest : List Char) :
    noDoubleSpace (c1 :: c2 :: rest) =
      (!(c1 == ' ' && c2 == ' ') && noDoubleSpace (c2 :: rest)) := rfl

theorem noDoubleSpace_append (a b : List Char)
    (ha : noDoubleSpace a = true) (hb : noDoubleSpace b = true)
    (hx : a.getLast? ≠ some ' ' ∨ b.head? ≠ some ' ') :
    noDoubleSpace (a ++ b) = true := by
  induction a with
  | nil => simpa using hb
  | cons c a ih =>
    cases a with
    | nil =>
      cases b with
      | nil => simpa using ha
      | cons d rest =>
        rw [List.singleton_append, noDoubleSpace_cons_cons, Bool.and_eq_true]
        refine ⟨?_, hb⟩
        rcases hx with hx | hx
        · have hc : c ≠ ' ' := by simpa using hx
          simp [hc]
        · have hd : d ≠ ' ' := by simpa using hx
          simp [hd]
    | cons c2 a2 =>
      rw [noDoubleSpace_cons_cons, Bool.and_eq_true] at ha
      obtain ⟨ha1, ha2⟩ := ha
      have hx2 : (c2 :: a2).getLast? ≠ some ' ' ∨ b.head? ≠ some ' ' := by
        rcases hx with hx | hx
        · left
          simpa [List.getLast?_cons_cons] using hx
        · right; exact hx
      have hrec := ih ha2 hx2
      rw [List.cons_append] at hrec
      rw [List.cons_append, List.cons_append, noDoubleSpace_cons_cons, Bool.and_eq_true]
      exact ⟨ha1, hrec⟩

theorem strData_append (a b : String) : (a ++ b).data = a.data ++ b.data := rfl

theorem head_ne_space_of_headSpace_false (cs : List Char) (h : headSpace cs = false) :
    cs.head? ≠ some ' ' := by
  intro hc
  simp [headSpace, hc, isPySpace] at h

theorem last_ne_space_of_lastSpace_false (cs : List Char) (h : lastSpace cs = false) :
    cs.getLast? ≠ some ' ' := by
  intro hc
  simp [lastSpace, hc, isPySpace] at h

theorem pyJoin_space_ok (parts : List String) (hne : parts ≠ [])
    (hok : ∀ p ∈ parts, partOk p = true) :
    (pyJoin " " parts).data ≠ [] ∧ noDoubleSpace (pyJoin " " parts).data = true ∧
      headSpace (pyJoin " " parts).data = false ∧ lastSpace (pyJoin " " parts).data = false := by
  induction parts with
  | nil => exact absurd rfl hne
  | cons p parts ih =>
    have hp := hok p (List.mem_cons_self p parts)
    simp only [partOk, Bool.and_eq_true, Bool.not_eq_true'] at hp
    obtain ⟨⟨⟨hp1, hp2⟩, hp3⟩, hp4⟩ := hp
    have hp1' : p.data ≠ [] := by
      intro h; rw [h] at hp1; simp at hp1
    cases parts with
    | nil =>
      exact ⟨hp1', hp2, hp3, hp4⟩
    | cons q rest =>
      have ihq := ih (by simp) (fun r hr => hok r (List.mem_cons_of_mem p hr))
      obtain ⟨ih1, ih2, ih3, ih4⟩ := ihq
      have hJ : (pyJoin " " (p :: q :: rest)).data =
          p.data ++ (' ' :: (pyJoin " " (q :: rest)).data) := by
        show (p ++ " " ++ pyJoin " " (q :: rest)).data = _
        simp [strData_append, List.append_assoc]
      have hmid : noDoubleSpace (' ' :: (pyJoin " " (q :: rest)).data) = true := by
        have := noDoubleSpace_append [' '] (pyJoin " " (q :: rest)).data (by rfl) ih2
          (Or.inr (head_ne_space_of_headSpace_false _ ih3))
        simpa using this
      refine ⟨?_, ?_, ?_, ?_⟩
      · rw [hJ]
        simp [hp1']
      · rw [hJ]
        exact noDoubleSpace_append _ _ hp2 hmid
          (Or.inl (last_ne_space_of_lastSpace_false _ hp4))
      · rw [hJ]
        rw [headSpace, List.head?_append_of_ne_nil _ hp1']
        rw [headSpace] at hp3
        exact hp3
      · rw [hJ]
        rw [lastSpace, List.getLast?_append_of_ne_nil _ (by simp)]
        have hcons : (' ' :: (pyJoin " " (q :: rest)).data) =
            [' '] ++ (pyJoin " " (q :: rest)).data := rfl
        rw [hcons, List.getLast?_append_of_ne_nil _ ih1]
        rw [lastSpace] at ih4
        exact ih4

theorem pyStrip_of_no_edge_space (s : String)
    (h1 : headSpace s.data = false) (h2 : lastSpace s.data = false) :
    pyStrip s = s := by
  cases hs : s.data with
  | nil =>
    have : s = String.mk [] := by
      cases s; simp_all
    rw [this]
    rfl
  | cons c rest =>
    have hc : isPySpace c = false := by
      rw [headSpace, hs] at h1
      simpa using h1
    have hdrop : s.data.dropWhile isPySpace = s.data := by
      rw [hs, List.dropWhile_cons, hc]
      simp
    have hlastne : s.data.getLast? ≠ none := by
      rw [hs]
      simp
    have hrev : s.data.reverse.dropWhile isPySpace = s.data.reverse := by
      cases hr : s.data.reverse with
      | nil =>
        simp
      | cons d rrest =>
        have hd : s.data.getLast? = some d := by
          rw [← List.head?_reverse, hr]
          rfl
        have hdspace : isPySpace d = false := by
          rw [lastSpace, hd] at h2
          simpa using h2
        rw [List.dropWhile_cons, hdspace]
        simp
    unfold pyStrip
    rw [hdrop, hrev, List.reverse_reverse]

/-- C8: parse_full_location concatenates the five dropoff parts in the
fixed source order, dropping every part that is missing, empty, the
literal None string, or the literal Off-Campus string, joins the
surviving parts with single spaces and trims; for well-formed surviving
parts the result contains no double space, in particular none at a
dropped-part boundary. -/
theorem claim_C8_parse_full_location (row : Row) :
    parse_full_location row = pyStrip (pyJoin " " (survivingParts row)) ∧
    survivingParts row = ((dropoff_parts row).filter keptPart).map pyStrOpt ∧
    (∀ p, keptPart p = false ↔
      (p = none ∨ p = some "" ∨ p = some "None" ∨ p = some "Off-Campus")) ∧
    ((∀ p ∈ survivingParts row, partOk p = true) →
      noDoubleSpace (parse_full_location row).data = true) := by
  refine ⟨rfl, rfl, ?_, ?_⟩
  · intro p
    cases p with
    | none => simp [keptPart]
    | some s =>
      simp [keptPart]
      tauto
  · intro hok
    by_cases hsp : survivingParts row = []
    · have hdef : parse_full_location row = pyStrip (pyJoin " " (survivingParts row)) := rfl
      rw [hdef, hsp]
      decide
    · obtain ⟨h1, h2, h3, h4⟩ := pyJoin_space_ok _ hsp hok
      have hid := pyStrip_of_no_edge_space _ h3 h4
      have hdef : parse_full_location row = pyStrip (pyJoin " " (survivingParts row)) := rfl
      rw [hdef, hid]
      exact h2

/-- Witness for C8: all five parts populated, one equal to Off-Campus;
the joined result omits it and has no double space at the boundary. -/
theorem claim_C8_witness :
    noDoubleSpace (parse_full_location
      [("DropoffLocation", "Smith Hall"), ("DropoffDormRoomNumber", "203"),
       ("DropoffDormRoomLetter", "B"), ("DropoffAddressLine1", "Off-Campus"),
       ("DropoffAddressLine2", "12 Main St")]).data = true ∧
    parse_full_location
      [("DropoffLocation", "Smith Hall"), ("DropoffDormRoomNumber", "203"),
       ("DropoffDormRoomLetter", "B"), ("DropoffAddressLine1", "Off-Campus"),
       ("DropoffAddressLine2", "12 Main St")] = "Smith Hall 203 B 12 Main St" :=
  ⟨(claim_C8_parse_full_location _).2.2.2 (by decide), by decide⟩

theorem updateFirstQty_map_title (acc : List AggItem) (t : String) (q : Int) :
    (updateFirstQty acc t q).map AggItem.ItemTitle = acc.map AggItem.ItemTitle := by
  induction acc with
  | nil => rfl
  | cons it rest ih =>
    by_cases h : it.ItemTitle = t
    · simp [updateFirstQty, h]
    · simp [updateFirstQty, h, ih]

theorem qtyOfTitle_updateFirstQty (acc : List AggItem) (t : String) (q : Int)
    (hmem : t ∈ acc.map AggItem.ItemTitle) (t2 : String) :
    qtyOfTitle (updateFirstQty acc t q) t2 =
      qtyOfTitle acc t2 + (if t = t2 then q else 0) := by
  induction acc with
  | nil => simp at hmem
  | cons it rest ih =>
    by_cases h : it.ItemTitle = t
    · simp only [updateFirstQty, if_pos h, qtyOfTitle, h]
      by_cases h2 : t = t2
      · simp [h2]
        ring
      · simp [h2]
    · have hmem2 : t ∈ rest.map AggItem.ItemTitle := by
        rcases List.mem_map.mp hmem with ⟨a, ha, hat⟩
        rcases ha with _ | ha
        · exact absurd hat h
        · exact List.mem_map.mpr ⟨a, by assumption, hat⟩
      simp only [updateFirstQty, if_neg h, qtyOfTitle, ih hmem2]
      ring

theorem qtyOfTitle_append_single (acc : List AggItem) (x : AggItem) (t2 : String) :
    qtyOfTitle (acc ++ [x]) t2 =
      qtyOfTitle acc t2 + (if x.ItemTitle = t2 then x.Quantity else 0) := by
  induction acc with
  | nil => simp [qtyOfTitle]
  | cons it rest ih =>
    show (if it.ItemTitle = t2 then it.Quantity else 0) + qtyOfTitle (rest ++ [x]) t2 =
      ((if it.ItemTitle = t2 then it.Quantity else 0) + qtyOfTitle rest t2) +
        (if x.ItemTitle = t2 then x.Quantity else 0)
    rw [ih]
    ring

theorem aggStep_eq (acc : List AggItem) (l : ItemLine) :
    aggStep acc l =
      if lineKey l ∈ acc.map AggItem.ItemTitle then
        updateFirstQty acc (lineKey l) (l.Quantity.getD 1)
      else acc ++ [⟨lineKey l, l.Quantity.getD 1⟩] := rfl

theorem qtyOfTitle_foldl (lines : List ItemLine) :
    ∀ (acc : List AggItem) (t : String),
      qtyOfTitle (List.foldl aggStep acc lines) t = qtyOfTitle acc t + linesQty lines t := by
  induction lines with
  | nil =>
    intro acc t
    simp [linesQty]
  | cons l rest ih =>
    intro acc t
    rw [List.foldl_cons, ih]
    have hstep : qtyOfTitle (aggStep acc l) t =
        qtyOfTitle acc t + (if lineKey l = t then l.Quantity.getD 1 else 0) := by
      by_cases hmem : lineKey l ∈ acc.map AggItem.ItemTitle
      · rw [aggStep_eq, if_pos hmem, qtyOfTitle_updateFirstQty acc _ _ hmem]
      · rw [aggStep_eq, if_neg hmem, qtyOfTitle_append_single]
    rw [hstep]
    show _ = qtyOfTitle acc t + ((if lineKey l = t then l.Quantity.getD 1 else 0) + linesQty rest t)
    ring

theorem titles_foldl (lines : List ItemLine) :
    ∀ acc : List AggItem,
      (List.foldl aggStep acc lines).map AggItem.ItemTitle =
        List.foldl insertNew (acc.map AggItem.ItemTitle) (lines.map lineKey) := by
  induction lines with
  | nil =>
    intro acc
    simp
  | cons l rest ih =>
    intro acc
    rw [List.map_cons, List.foldl_cons, List.foldl_cons, ih]
    congr 1
    by_cases hmem : lineKey l ∈ acc.map AggItem.ItemTitle
    · rw [aggStep_eq, if_pos hmem, updateFirstQty_map_title, insertNew, if_pos hmem]
    · rw [aggStep_eq, if_neg hmem, List.map_append, insertNew, if_neg hmem]
      rfl

theorem insertNew_nodup (l : List String) :
    ∀ seen : List String, seen.Nodup → (List.foldl insertNew seen l).Nodup := by
  induction l with
  | nil =>
    intro seen h
    simpa using h
  | cons t rest ih =>
    intro seen h
    rw [List.foldl_cons]
    apply ih
    by_cases hmem : t ∈ seen
    · simpa [insertNew, hmem] using h
    · rw [insertNew, if_neg hmem]
      simp [List.nodup_append, h, hmem]

/-- C4: fetch_items raises an explicit client error when the response is
null or empty, and otherwise aggregates the returned lines by item title,
summing quantities, so the result has exactly one entry per distinct
title, in first-appearance order. -/
theorem claim_C4_fetch_items :
    fetch_items none = .error .clientError ∧
    fetch_items (some []) = .error .clientError ∧
    (∀ lines : List ItemLine, lines ≠ [] →
      fetch_items (some lines) = .ok (aggregateItems lines)) ∧
    (∀ lines : List ItemLine,
      (aggregateItems lines).map AggItem.ItemTitle = eraseDupsFirst (lines.map lineKey)) ∧
    (∀ lines : List ItemLine,
      ((aggregateItems lines).map AggItem.ItemTitle).Nodup) ∧
    (∀ (lines : List ItemLine) (t : String),
      qtyOfTitle (aggregateItems lines) t = linesQty lines t) := by
  refine ⟨rfl, rfl, ?_, ?_, ?_, ?_⟩
  · intro lines h
    simp [fetch_items, h]
  · intro lines
    exact titles_foldl lines []
  · intro lines
    rw [aggregateItems, titles_foldl lines []]
    exact insertNew_nodup _ _ (by simp)
  · intro lines t
    simpa [qtyOfTitle] using qtyOfTitle_foldl lines [] t

/-- Witness for C4: two lines with the same title and quantities 2 and 3
aggregate to a single entry with quantity 5; a later distinct title stays
distinct and after the first. -/
theorem claim_C4_witness :
    fetch_items (some [⟨some "Box", some 2⟩, ⟨some "Box", some 3⟩, ⟨some "Tote", some 1⟩]) =
      .ok [⟨"Box", 5⟩, ⟨"Tote", 1⟩] :=
  (claim_C4_fetch_items.2.2.1 _ (by decide)).trans rfl

theorem getLast?_append_dot (a b : List Char) (hb : b.getLast? = some '.') :
    (a ++ b).getLast? = some '.' := by
  have hbne : b ≠ [] := by
    intro hnil
    rw [hnil] at hb
    simp at hb
  rw [List.getLast?_append_of_ne_nil _ hbne]
  exact hb

/-- C6: fetch_internal_notes renders each fetched note as one sentence
that starts with the DELETED marker exactly when the deleted flag is the
string 1, and that ends in a period when the source comment is not
already dot-terminated. -/
theorem claim_C6_internal_notes (resp : List NoteData) (note : NoteData) :
    fetch_internal_notes (some resp) = resp.map render_note ∧
    ((render_note note).data.take 8 = "DELETED ".data ↔ note.Deleted = some "1") ∧
    (endsWithDot (note.Comment.getD "") = false →
      (render_note note).data.getLast? = some '.') := by
  refine ⟨rfl, ?_, ?_⟩
  · by_cases hdel : note.Deleted = some "1"
    · have hcond : (note.Deleted == some "1") = true := by simp [hdel]
      have htake : (render_note note).data.take 8 = "DELETED ".data := by
        simp only [render_note, hcond, if_true, strData_append, List.append_assoc]
        rw [List.take_append_of_le_length (by decide)]
        decide
      simp [htake, hdel]
    · have hcond : (note.Deleted == some "1") = false := by simp [hdel]
      have htake : (render_note note).data.take 8 = "Internal".data := by
        simp only [render_note, hcond, strData_append, List.append_assoc]
        rw [show (if false = true then ("DELETED " : String) else "") = "" from rfl]
        rw [show ("" : String).data = ([] : List Char) from rfl, List.nil_append,
          List.take_append_of_le_length (by decide)]
        decide
      rw [htake]
      constructor
      · intro h
        exact absurd h (by decide)
      · intro h
        exact absurd h hdel
  · intro hend
    simp only [render_note, hend, strData_append, List.append_assoc]
    rw [show (if false = true then ("" : String) else ".") = "." from rfl]
    exact getLast?_append_dot _ _ (getLast?_append_dot _ _ (getLast?_append_dot _ _
      (getLast?_append_dot _ _ (getLast?_append_dot _ _ (getLast?_append_dot _ _
        (getLast?_append_dot _ _ (by decide)))))))

/-- Witness for C6: a deleted note whose comment lacks a final period
renders with the DELETED marker and a trailing period. -/
theorem claim_C6_witness :
    (render_note ⟨some "lost key", some "ana", none, some "1"⟩).data.take 8 = "DELETED ".data ∧
    (render_note ⟨some "lost key", some "ana", none, some "1"⟩).data.getLast? = some '.' ∧
    render_note ⟨some "lost key", some "ana", none, some "1"⟩ =
      "DELETED Internal note by ana on None: lost key." :=
  ⟨(claim_C6_internal_notes [] ⟨some "lost key", some "ana", none, some "1"⟩).2.1.mpr rfl,
   (claim_C6_internal_notes [] ⟨some "lost key", some "ana", none, some "1"⟩).2.2 (by decide),
   by decide⟩

/-- C7: generate_comments always returns the joined comment string; when
the internal-notes fetch raises, the failure is caught and the string
assembled so far, the four conditional lines in their fixed source order
(cancellation, deletion, proxy contact, pending balance), is still
returned rather than the failure propagating. -/
theorem claim_C7_generate_comments (c : Client) (data : Row) (e : PyErr)
    (hfail : ∀ oid, rowGet data "OrderID" = some oid →
      c.fetchInternalNotes oid = .error e) :
    generate_comments c data = pyJoin " " (base_comments data) := by
  have hnotes : notes_comments c data = [] := by
    unfold notes_comments
    cases h : rowGet data "OrderID" with
    | none => rfl
    | some oid =>
      simp [hfail oid h]
  rw [generate_comments, hnotes, List.append_nil]

/-- Witness for C7: a client whose notes endpoint always fails still
yields the two applicable conditional lines. -/
theorem claim_C7_witness :
    generate_comments
      ⟨fun _ => .ok none, fun _ => .ok none, fun _ => .ok none,
       fun _ => .error .clientError, fun _ _ => .ok ()⟩
      [("OrderID", "9"), ("Cancelled", "1"), ("Balance", "25")] =
      "Order was canceled. Call customer to pay pending balance." := by
  have h := claim_C7_generate_comments
    ⟨fun _ => .ok none, fun _ => .ok none, fun _ => .ok none,
     fun _ => .error .clientError, fun _ _ => .ok ()⟩
    [("OrderID", "9"), ("Cancelled", "1"), ("Balance", "25")]
    PyErr.clientError (fun _ _ => rfl)
  exact h.trans (by decide)

/-- Counterexample for C2: the digit string 0 passes the isdigit check,
so get_order_id returns the order identifier 0, which is not a positive
integer; the claim that the identifier must be positive fails. -/
theorem claim_C2_counterexample :
    get_order_id [("OrderID", "0")] = .ok 0 ∧ ¬(0 < 0) :=
  ⟨rfl, by decide⟩

/-- C2 amended: the order identifier string is taken from the OrderID
column when truthy, otherwise from the first column; the selected string
must be a nonempty all-digit string, hence a non-negative integer with
zero allowed, else get_order_id raises ValueError; any raise makes
build_row fail at once with an empty outward-call trace, so the row is
skipped before any API fetch. -/
theorem claim_C2_get_order_id (row : Row) (oai : String → Option String) (c : Client) :
    (pyTruthy (rowGet row "OrderID") = true →
      order_id_str row = .ok (rowGet row "OrderID")) ∧
    (pyTruthy (rowGet row "OrderID") = false →
      (∀ k v rest, row = (k, v) :: rest → order_id_str row = .ok (rowGet row k)) ∧
      (row = [] → order_id_str row = .error .stopIteration)) ∧
    (∀ s, order_id_str row = .ok (some s) →
      (isDigitStr s = true → get_order_id row = .ok (digitsToNat s.data)) ∧
      (isDigitStr s = false → get_order_id row = .error .valueError)) ∧
    (∀ e, get_order_id row = .error e →
      build_row oai c row = ⟨[], .error e⟩) := by
  refine ⟨?_, ?_, ?_, ?_⟩
  · intro h
    unfold order_id_str
    simp [h]
  · intro h
    constructor
    · intro k v rest hrow
      subst hrow
      unfold order_id_str
      simp [h]
    · intro hrow
      subst hrow
      unfold order_id_str
      simp [h]
  · intro s h
    constructor <;> intro hd <;> unfold get_order_id <;> rw [h] <;> simp [hd]
  · intro e h
    unfold build_row
    rw [h]

/-- Witness for C2: a non-numeric order identifier raises and the row is
skipped with no outward calls. -/
theorem claim_C2_witness :
    get_order_id [("OrderID", "12x")] = .error .valueError ∧
    build_row (fun _ => none)
      ⟨fun _ => .ok none, fun _ => .ok none, fun _ => .ok none,
       fun _ => .ok none, fun _ _ => .ok ()⟩
      [("OrderID", "12x")] = ⟨[], .error .valueError⟩ := by
  have h := claim_C2_get_order_id [("OrderID", "12x")] (fun _ => none)
    ⟨fun _ => .ok none, fun _ => .ok none, fun _ => .ok none,
     fun _ => .ok none, fun _ _ => .ok ()⟩
  have hv : get_order_id [("OrderID", "12x")] = .error .valueError :=
    (h.2.2.1 "12x" rfl).2 (by decide)
  exact ⟨hv, h.2.2.2 PyErr.valueError hv⟩

theorem get_updated_rows_from_rows (oai : String → Option String) (c : Client) :
    ∀ (rows : List Row) (idx : Nat),
      (get_updated_rows_from oai c idx rows).rows =
        rows.filterMap (fun r => ((build_row oai c r).result).toOption) := by
  intro rows
  induction rows with
  | nil => intro idx; rfl
  | cons r rest ih =>
    intro idx
    unfold get_updated_rows_from
    cases h : (build_row oai c r).result with
    | ok nr => simp [h, ih, Except.toOption]
    | error e => simp [h, ih, Except.toOption]

/-- C5: get_updated_rows isolates per-row failures: the output rows are
exactly the successfully built rows in input order, and in a 3-row batch
whose second row fails the result is the enriched rows 1 and 3 together
with a warning recording the failed row's zero-based index 1 (the index
the source logs). -/
theorem claim_C5_row_isolation (oai : String → Option String) (c : Client) :
    (∀ rows : List Row,
      (get_updated_rows oai c rows).rows =
        rows.filterMap (fun r => ((build_row oai c r).result).toOption)) ∧
    (∀ (r1 r2 r3 : Row) (n1 n3 : OutRow) (e : PyErr),
      (build_row oai c r1).result = .ok n1 →
      (build_row oai c r2).result = .error e →
      (build_row oai c r3).result = .ok n3 →
      get_updated_rows oai c [r1, r2, r3] = ⟨[n1, n3], [1]⟩) := by
  constructor
  · intro rows
    exact get_updated_rows_from_rows oai c rows 0
  · intro r1 r2 r3 n1 n3 e h1 h2 h3
    unfold get_updated_rows
    unfold get_updated_rows_from
    simp [h1, h2, h3, get_updated_rows_from]

/-- Witness for C5: a concrete 3-row batch whose second row has a
non-numeric order identifier yields exactly the enriched rows 1 and 3
and the warned index 1. -/
theorem claim_C5_witness :
    get_updated_rows (fun _ => none)
      ⟨fun _ => .ok (some [⟨some "Box", some 2⟩]),
       fun _ => .ok (some ⟨some "A1", some "NE"⟩),
       fun _ => .ok (some [⟨some "u", some "img.jpg"⟩]),
       fun _ => .ok none,
       fun _ _ => .ok ()⟩
      [[("OrderID", "7")], [("OrderID", "x")], [("OrderID", "8")]] =
      ⟨[⟨some "7", none, "", none, "", none, "2x Box", "", "", "", "A1 NE", none, 1, ""⟩,
        ⟨some "8", none, "", none, "", none, "2x Box", "", "", "", "A1 NE", none, 1, ""⟩],
       [1]⟩ :=
  (claim_C5_row_isolation (fun _ => none)
    ⟨fun _ => .ok (some [⟨some "Box", some 2⟩]),
     fun _ => .ok (some ⟨some "A1", some "NE"⟩),
     fun _ => .ok (some [⟨some "u", some "img.jpg"⟩]),
     fun _ => .ok none,
     fun _ _ => .ok ()⟩).2
    [("OrderID", "7")] [("OrderID", "x")] [("OrderID", "8")]
    ⟨some "7", none, "", none, "", none, "2x Box", "", "", "", "A1 NE", none, 1, ""⟩
    ⟨some "8", none, "", none, "", none, "2x Box", "", "", "", "A1 NE", none, 1, ""⟩
    PyErr.valueError rfl rfl rfl

/-- C9: build_row never mutates its input row: run against the heap, the
store comes back unchanged at every address, and the outcome equals the
pure build_row applied to the snapshot of the row at the input address,
so the output is a freshly constructed value and the source row's keys
and values are identical before and after the call. -/
theorem claim_C9_build_row_frame (oai : String → Option String) (c : Client)
    (store : RowStore) (ref : Nat) :
    (build_row_heap oai c store ref).1 = store ∧
    (∀ row : Row, store.get? ref = some row →
      (build_row_heap oai c store ref).2 = build_row oai c row) := by
  constructor
  · rcases h1 : get_order_id (derefRow store ref) with e | oid
    · simp [build_row_heap, h1]
    · rcases h2 : c.fetchItems oid with e | items
      · simp [build_row_heap, h1, h2]
      · rcases h3 : c.fetchDropoffInfo oid with e | info
        · simp [build_row_heap, h1, h2, h3]
        · rcases h4 : c.fetchImages oid with e | imgs
          · simp [build_row_heap, h1, h2, h3, h4]
          · simp [build_row_heap, h1, h2, h3, h4]
  · intro row hrow
    rw [List.get?_eq_getElem?] at hrow
    have hd : derefRow store ref = row := by
      simp [derefRow, hrow]
    have hg : ∀ k, heapGet store ref k = rowGet row k := by
      intro k
      simp [heapGet, hrow]
    rcases h1 : get_order_id row with e | oid
    · simp [build_row_heap, build_row, hd, h1]
    · rcases h2 : c.fetchItems oid with e | items
      · simp [build_row_heap, build_row, hd, hg, h1, h2]
      · rcases h3 : c.fetchDropoffInfo oid with e | info
        · simp [build_row_heap, build_row, hd, hg, h1, h2, h3]
        · rcases h4 : c.fetchImages oid with e | imgs
          · simp [build_row_heap, build_row, hd, hg, h1, h2, h3, h4]
          · simp [build_row_heap, build_row, hd, hg, h1, h2, h3, h4]

/-- Witness for C9 at a concrete store and address. -/
theorem claim_C9_witness :
    (build_row_heap (fun _ => none)
      ⟨fun _ => .ok none, fun _ => .ok none, fun _ => .ok none,
       fun _ => .ok none, fun _ _ => .ok ()⟩
      [[("OrderID", "41")]] 0).1 = [[("OrderID", "41")]] ∧
    (build_row_heap (fun _ => none)
      ⟨fun _ => .ok none, fun _ => .ok none, fun _ => .ok none,
       fun _ => .ok none, fun _ _ => .ok ()⟩
      [[("OrderID", "41")]] 0).2 =
      build_row (fun _ => none)
        ⟨fun _ => .ok none, fun _ => .ok none, fun _ => .ok none,
         fun _ => .ok none, fun _ _ => .ok ()⟩
        [("OrderID", "41")] :=
  ⟨(claim_C9_build_row_frame (fun _ => none)
      ⟨fun _ => .ok none, fun _ => .ok none, fun _ => .ok none,
       fun _ => .ok none, fun _ _ => .ok ()⟩
      [[("OrderID", "41")]] 0).1,
   (claim_C9_build_row_frame (fun _ => none)
      ⟨fun _ => .ok none, fun _ => .ok none, fun _ => .ok none,
       fun _ => .ok none, fun _ _ => .ok ()⟩
      [[("OrderID", "41")]] 0).2 [("OrderID", "41")] rfl⟩

theorem write_loop_perm_skip (fs : String → WriteOutcome) (f : String) (header : List String) :
    ∀ (n j fuel : Nat), n < fuel →
      (∀ k, j ≤ k → k < j + n → fs (nthAttemptName f k) = .permissionDenied) →
      write_loop fs fuel (nthAttemptName f j) j header =
        write_loop fs (fuel - n) (nthAttemptName f (j + n)) (j + n) header := by
  intro n
  induction n with
  | zero =>
    intro j fuel _ _
    simp
  | succ m ih =>
    intro j fuel hfuel hperm
    cases fuel with
    | zero => omega
    | succ fuel0 =>
      have hp := hperm j (le_refl j) (by omega)
      have hstep : write_loop fs (fuel0 + 1) (nthAttemptName f j) j header =
          write_loop fs fuel0 (nthAttemptName f (j + 1)) (j + 1) header := by
        simp [write_loop, hp, nthAttemptName]
      have hrec := ih (j + 1) fuel0 (by omega)
        (fun k hk1 hk2 => hperm k (by omega) (by omega))
      rw [hstep, hrec]
      have hj : j + 1 + m = j + (m + 1) := by omega
      have hf : fuel0 - m = fuel0 + 1 - (m + 1) := by omega
      rw [hj, hf]

/-- Counterexample for C1: with the original file and its first retry
name both permission-locked, the second retry writes under the name
carrying both counters, name (1) (2).csv, not under name (2).csv as the
claimed sequence predicts. -/
theorem claim_C1_counterexample :
    write_to_csv
      (fun s => if s == "name.csv" || s == "name (1).csv" then .permissionDenied else .success)
      10 "name.csv" [[("A", "1")]] =
      .ok ⟨"name (1) (2).csv", ["A"]⟩ ∧
    ("name (1) (2).csv" : String) ≠ "name (2).csv" :=
  ⟨rfl, by decide⟩

/-- C1 amended: a permission-denied failure is retried under a mutated
name, but each retry appends its parenthesized counter to the current,
already-mutated name, so attempt n uses nthAttemptName f n (cumulative
suffixes: name (1).csv, then name (1) (2).csv, and so on); the loop
continues until a write succeeds, and any write failure other than
permission-denied propagates and aborts the run. -/
theorem claim_C1_write_retry (fs : String → WriteOutcome) (f : String)
    (rows : List (List (String × String))) (row0 : List (String × String))
    (rest : List (List (String × String))) (hrows : rows = row0 :: rest)
    (n fuel : Nat) (hfuel : n < fuel)
    (hperm : ∀ k, k < n → fs (nthAttemptName f k) = .permissionDenied) :
    (fs (nthAttemptName f n) = .success →
      write_to_csv fs fuel f rows = .ok ⟨nthAttemptName f n, row0.map Prod.fst⟩) ∧
    (fs (nthAttemptName f n) = .otherError →
      write_to_csv fs fuel f rows = .error .ioError) := by
  have hskip := write_loop_perm_skip fs f (row0.map Prod.fst) n 0 fuel hfuel
    (fun k hk1 hk2 => hperm k (by omega))
  have hw : write_to_csv fs fuel f rows =
      write_loop fs fuel (nthAttemptName f 0) 0 (row0.map Prod.fst) := by
    rw [hrows]
    rfl
  have hpos : fuel - n = (fuel - n - 1) + 1 := by omega
  constructor <;> intro hout
  · rw [hw, hskip, hpos]
    simp only [Nat.zero_add] at hout ⊢
    simp [write_loop, hout]
  · rw [hw, hskip, hpos]
    simp only [Nat.zero_add] at hout ⊢
    simp [write_loop, hout]

/-- Witness for C1: the counterexample scenario run through the amended
theorem: two locked names, success on the cumulative third name. -/
theorem claim_C1_witness :
    write_to_csv
      (fun s => if s == "name.csv" || s == "name (1).csv" then .permissionDenied else .success)
      10 "name.csv" [[("A", "1")]] =
      .ok ⟨"name (1) (2).csv", ["A"]⟩ :=
  ((claim_C1_write_retry
      (fun s => if s == "name.csv" || s == "name (1).csv" then .permissionDenied else .success)
      "name.csv" [[("A", "1")]] [("A", "1")] [] rfl 2 10 (by decide)
      (by decide)).1 (by decide)).trans rfl

theorem write_loop_header (fs : String → WriteOutcome) :
    ∀ (fuel : Nat) (name : String) (attempt : Nat) (header : List String) (out : CsvWrite),
      write_loop fs fuel name attempt header = .ok out → out.header = header := by
  intro fuel
  induction fuel with
  | zero =>
    intro name attempt header out h
    simp [write_loop] at h
  | succ fuel0 ih =>
    intro name attempt header out h
    cases hfs : fs name with
    | success =>
      simp only [write_loop, hfs] at h
      simp only [Except.ok.injEq] at h
      rw [← h]
    | permissionDenied =>
      simp only [write_loop, hfs] at h
      exact ih _ _ _ _ h
    | otherError =>
      simp [write_loop, hfs] at h

/-- C10: write_to_csv raises ValueError on an empty row list whatever the
file system does, so a run in which every input row was skipped aborts at
the write step instead of producing an output file; for non-empty rows a
successful write's header is exactly the first row's key list. -/
theorem claim_C10_write_empty (fs : String → WriteOutcome) (fuel : Nat) (f : String) :
    (write_to_csv fs fuel f [] = .error .valueError) ∧
    (∀ (row0 : List (String × String)) (rest : List (List (String × String)))
        (out : CsvWrite),
      write_to_csv fs fuel f (row0 :: rest) = .ok out →
      out.header = row0.map Prod.fst) := by
  constructor
  · rfl
  · intro row0 rest out h
    exact write_loop_header fs fuel f 0 _ out h

/-- Witness for C10 at a concrete file system and row list. -/
theorem claim_C10_witness :
    (write_to_csv (fun _ => .success) 1 "orders_output.csv" [] = .error .valueError) ∧
    (CsvWrite.header ⟨"orders_output.csv", ["A", "B"]⟩ =
      ([("A", "1"), ("B", "2")] : List (String × String)).map Prod.fst) :=
  ⟨(claim_C10_write_empty (fun _ => .success) 1 "orders_output.csv").1,
   (claim_C10_write_empty (fun _ => .success) 1 "orders_output.csv").2
     [("A", "1"), ("B", "2")] [] ⟨"orders_output.csv", ["A", "B"]⟩ rfl⟩
